import Mathlib

/-!
Verification of the TempMon temperature-monitor control loop
(src/tools/TempMon/tempmon.cpp) against its natural-language specification.

The C++ `long double` temperature values are modelled by the type `TD`:
either the NaN failed-read marker (`std::nan("")`) or an exact real value
(rationals stand in for the finite floats; none of the verified properties
depend on rounding).  IEEE-754 comparison semantics — NaN compares unequal
to everything, including itself, and every ordering comparison involving
NaN is false — are modelled explicitly in the comparison functions below.

Hardware state (wiringPi pin levels) is modelled as a function from pin
numbers to boolean levels; `digitalRead` reads it, `digitalWrite` updates
it.  Console log lines and writes are recorded as `PinEvent` values.
-/

/-- Model of a C++ `long double` temperature value: NaN or a finite value. -/
inductive TD where
  | nan : TD
  | val : ℚ → TD
deriving DecidableEq

namespace TD

/-- Model of `std::isnan`. -/
def isNan : TD → Bool
  | nan => true
  | val _ => false

/-- IEEE-754 `==` on long doubles: NaN never compares equal. -/
def beq : TD → TD → Bool
  | val x, val y => decide (x = y)
  | _, _ => false

/-- IEEE-754 `!=` on long doubles: true whenever either operand is NaN. -/
def bne (a b : TD) : Bool := !(beq a b)

/-- IEEE-754 `<`: false whenever either operand is NaN. -/
def blt : TD → TD → Bool
  | val x, val y => decide (x < y)
  | _, _ => false

/-- IEEE-754 `>`: false whenever either operand is NaN. -/
def bgt : TD → TD → Bool
  | val x, val y => decide (y < x)
  | _, _ => false

/-- IEEE-754 `<=`: false whenever either operand is NaN. -/
def ble : TD → TD → Bool
  | val x, val y => decide (x ≤ y)
  | _, _ => false

/-- IEEE-754 `>=`: false whenever either operand is NaN. -/
def bge : TD → TD → Bool
  | val x, val y => decide (y ≤ x)
  | _, _ => false

end TD

/-- The `TEMPR_COMP_OPS` map from tempmon.cpp: operator name to comparison
closure over two long doubles (association list stands in for `std::map`). -/
def TEMPR_COMP_OPS : List (String × (TD → TD → Bool)) :=
  [("=", TD.beq), ("<", TD.blt), (">", TD.bgt), ("<=", TD.ble), (">=", TD.bge)]

/-- `TEMPR_COMP_OPS.count(cond)`: number of entries with the given key. -/
def opsCount (cond : String) : Nat :=
  (TEMPR_COMP_OPS.filter (fun e => e.1 == cond)).length

/-- `TEMPR_COMP_OPS.at(cond)`: the comparison function for a key; only ever
invoked by the program after checking `opsCount cond ≥ 1`. -/
def opsAt (cond : String) : TD → TD → Bool :=
  match TEMPR_COMP_OPS.find? (fun e => e.1 == cond) with
  | some e => e.2
  | none => fun _ _ => false

/-- The `GpioPin` struct from tempmon.cpp. -/
structure GpioPin where
  wpi_pin_number : Int
  output_value : Bool
  condition : String
  active_on_terminate : Bool
  condition_temp_degC : TD
  temp_degC_source : String
  last_read_temp_degC : TD
deriving DecidableEq

/-- Observable per-pin events of one tick: the two `std::cerr` diagnostic
lines and a `digitalWrite` (with its logged level and termination marker). -/
inductive PinEvent where
  | readFailure (pin : Int)
  | unsupportedOp (pin : Int)
  | write (pin : Int) (level : Bool) (terminate : Bool)
deriving DecidableEq

/-- Whether a `PinEvent` is a physical write to the output sink. -/
def PinEvent.isWrite : PinEvent → Bool
  | write _ _ _ => true
  | _ => false

/-- `read_temp_degC` from tempmon.cpp.  The source file is modelled as
`none` when it cannot be opened, `some none` when it opens but integer
extraction from the stream fails (C++ `operator>>` then leaves `raw_temp`
at its initialiser `0`), and `some (some raw)` when the integer `raw` is
read successfully. -/
def read_temp_degC (file : Option (Option Int)) : TD :=
  match file with
  | none => TD.nan
  | some contents =>
      let raw_temp : Int := contents.getD 0
      TD.val ((raw_temp : ℚ) / 1000)

/-- The per-pin body of the control loop (tempmon.cpp lines 137–179):
read the temperature, take the read-failure or unsupported-operator
`continue` paths, otherwise evaluate termination match / condition match
and conditionally write the pin.  Returns the updated pin, the updated
sink, and the events of this pin's slice of the tick.  `env` gives the
temperature source contents this tick; `shuttingDown` is `keep_running == 0`. -/
def pinTick (env : String → TD) (shuttingDown : Bool) (p : GpioPin)
    (sink : Int → Bool) : GpioPin × (Int → Bool) × List PinEvent :=
  let temp_degC := env p.temp_degC_source
  if TD.bne p.last_read_temp_degC temp_degC && temp_degC.isNan then
    (p, sink, [PinEvent.readFailure p.wpi_pin_number])
  else if opsCount p.condition < 1 then
    (p, sink, [PinEvent.unsupportedOp p.wpi_pin_number])
  else
    let terminate_match := p.active_on_terminate && shuttingDown
    if terminate_match || (TD.bne p.last_read_temp_degC temp_degC
        && opsAt p.condition temp_degC p.condition_temp_degC) then
      let outp_val := p.output_value
      let curr_outp_val := sink p.wpi_pin_number
      if curr_outp_val != outp_val then
        ({ p with last_read_temp_degC := temp_degC },
         fun q => if q = p.wpi_pin_number then outp_val else sink q,
         [PinEvent.write p.wpi_pin_number outp_val terminate_match])
      else
        ({ p with last_read_temp_degC := temp_degC }, sink, [])
    else
      ({ p with last_read_temp_degC := temp_degC }, sink, [])

/-- One full tick: the `for (GpioPin& p : pin_outputs)` loop, threading the
sink state through the pins in order and collecting all events. -/
def tickPins (env : String → TD) (shuttingDown : Bool) :
    List GpioPin → (Int → Bool) → List GpioPin × (Int → Bool) × List PinEvent
  | [], sink => ([], sink, [])
  | p :: rest, sink =>
      let r := pinTick env shuttingDown p sink
      let rec' := tickPins env shuttingDown rest r.2.1
      (r.1 :: rec'.1, rec'.2.1, r.2.2 ++ rec'.2.2)

/-- Record of one iteration of the `do … while` loop: the time at which the
tick started, the value of `keep_running == 0` it observed, how many pins it
processed, its events, and how many 200 ms sleep slices followed it. -/
structure TickRec where
  startTime : Nat
  shuttingDown : Bool
  numPins : Nat
  events : List PinEvent
  slicesAfter : Nat
deriving DecidableEq

/-- Result of running the control loop to completion. -/
structure LoopResult where
  trace : List TickRec
  pins : List GpioPin
  sink : Int → Bool
  exitCode : Nat

/-- The `do … while (!break_loop)` loop of `main` (tempmon.cpp lines
129–185).  Time is counted in 200 ms sleep slices; `envSched t` gives the
temperature sources' contents at time `t`; the shutdown signal is delivered
so that `keep_running` reads `0` exactly at times `t ≥ t0` (and, being a
latch set once by the handler, stays `0`).  Each iteration checks the flag
at the loop head (setting `break_loop`), runs one full tick over all pins
with `shuttingDown = (t0 ≤ t)`, then sleeps up to ten slices, re-checking
the flag before each slice, so sleeping stops as soon as the flag is
observed; the loop exits after the iteration whose head check saw the flag,
and `main` returns 0. -/
def runLoop (envSched : Nat → String → TD) (t0 : Nat) (t : Nat)
    (pins : List GpioPin) (sink : Int → Bool) : LoopResult :=
  let r := tickPins (envSched t) (decide (t0 ≤ t)) pins sink
  if h : t0 ≤ t then
    { trace := [⟨t, true, pins.length, r.2.2, 0⟩],
      pins := r.1, sink := r.2.1, exitCode := 0 }
  else
    let slices := min 10 (t0 - t)
    let rest := runLoop envSched t0 (t + slices) r.1 r.2.1
    { rest with trace := ⟨t, false, pins.length, r.2.2, slices⟩ :: rest.trace }
termination_by t0 - t
decreasing_by
  simp only [not_le] at h
  have h1 : 1 ≤ min 10 (t0 - t) := by omega
  omega

/-- Result of `main`: exit code, whether hardware setup was reached
(`wiringPiSetup` / `pinMode` calls), and the loop's tick trace. -/
structure MainResult where
  exitCode : Nat
  hwTouched : Bool
  trace : List TickRec

/-- `main` from tempmon.cpp (lines 86–189), after the startup log line.
The configuration is modelled post-parse: `none` when the configuration
file cannot be opened, `some pins` for the parsed pin descriptors.  On an
unopenable file it returns 1; on an empty descriptor list it returns 2; in
both cases before touching the hardware or entering the loop.  Otherwise it
initialises the pins, runs the loop, and returns its exit code. -/
def tempmon_main (config : Option (List GpioPin)) (envSched : Nat → String → TD)
    (t0 : Nat) (sink : Int → Bool) : MainResult :=
  match config with
  | none => ⟨1, false, []⟩
  | some pin_outputs =>
      if pin_outputs.length = 0 then ⟨2, false, []⟩
      else
        let r := runLoop envSched t0 0 pin_outputs sink
        ⟨r.exitCode, true, r.trace⟩

/-- The comparison semantics in the words of the spec: standard numeric
comparison for the five operator symbols.  Used only to be compared with
the comparison table taken from the source. -/
def spec_compare (op : String) (x y : ℚ) : Bool :=
  if op = "=" then decide (x = y)
  else if op = "<" then decide (x < y)
  else if op = ">" then decide (x > y)
  else if op = "<=" then decide (x ≤ y)
  else if op = ">=" then decide (x ≥ y)
  else false

/-- Test pin used by the concrete witnesses and counterexamples: pin 7,
level `true` when the temperature exceeds 50 °C, from source `A`, with the
`lastReading` sentinel 0.0 of a freshly parsed configuration. -/
def testPin : GpioPin :=
  { wpi_pin_number := 7, output_value := true, condition := ">",
    active_on_terminate := false, condition_temp_degC := TD.val 50,
    temp_degC_source := "A", last_read_temp_degC := TD.val 0 }

/-- Variant of `testPin` with the termination override enabled. -/
def termPin : GpioPin :=
  { testPin with active_on_terminate := true }

/-- NaN compares unequal to everything on its right, itself included. -/
theorem TD.bne_of_isNan_right (a b : TD) (h : b.isNan = true) : TD.bne a b = true := by
  cases a <;> cases b <;> simp_all [TD.bne, TD.beq, TD.isNan]

/-- Branch characterisation of one pin's tick: read failure, unsupported
operator, no condition match, match with the sink already at the desired
level, or match with an actual write. -/
theorem pinTick_spec (env : String → TD) (sd : Bool) (p : GpioPin) (sink : Int → Bool) :
    ((pinTick env sd p sink).2.2 = [PinEvent.readFailure p.wpi_pin_number] ∧
       (pinTick env sd p sink).1 = p ∧ (pinTick env sd p sink).2.1 = sink ∧
       (env p.temp_degC_source).isNan = true) ∨
    ((pinTick env sd p sink).2.2 = [PinEvent.unsupportedOp p.wpi_pin_number] ∧
       (pinTick env sd p sink).1 = p ∧ (pinTick env sd p sink).2.1 = sink ∧
       (env p.temp_degC_source).isNan = false ∧ opsCount p.condition < 1) ∨
    ((pinTick env sd p sink).2.2 = [] ∧ (pinTick env sd p sink).2.1 = sink ∧
       (env p.temp_degC_source).isNan = false ∧ 1 ≤ opsCount p.condition ∧
       ((p.active_on_terminate && sd) ||
         (TD.bne p.last_read_temp_degC (env p.temp_degC_source)
           && opsAt p.condition (env p.temp_degC_source) p.condition_temp_degC)) = false) ∨
    ((pinTick env sd p sink).2.2 = [] ∧ (pinTick env sd p sink).2.1 = sink ∧
       sink p.wpi_pin_number = p.output_value ∧
       (env p.temp_degC_source).isNan = false ∧ 1 ≤ opsCount p.condition ∧
       ((p.active_on_terminate && sd) ||
         (TD.bne p.last_read_temp_degC (env p.temp_degC_source)
           && opsAt p.condition (env p.temp_degC_source) p.condition_temp_degC)) = true) ∨
    ((pinTick env sd p sink).2.2
        = [PinEvent.write p.wpi_pin_number p.output_value (p.active_on_terminate && sd)] ∧
       (pinTick env sd p sink).2.1
        = (fun q => if q = p.wpi_pin_number then p.output_value else sink q) ∧
       sink p.wpi_pin_number ≠ p.output_value ∧
       (env p.temp_degC_source).isNan = false ∧ 1 ≤ opsCount p.condition ∧
       ((p.active_on_terminate && sd) ||
         (TD.bne p.last_read_temp_degC (env p.temp_degC_source)
           && opsAt p.condition (env p.temp_degC_source) p.condition_temp_degC)) = true) := by
  unfold pinTick
  by_cases hg1 : (TD.bne p.last_read_temp_degC (env p.temp_degC_source)
      && (env p.temp_degC_source).isNan) = true
  · rw [if_pos hg1]
    exact Or.inl ⟨rfl, rfl, rfl, ((Bool.and_eq_true _ _).mp hg1).2⟩
  · rw [if_neg hg1]
    have hnn : (env p.temp_degC_source).isNan = false := by
      cases hN : (env p.temp_degC_source).isNan with
      | false => rfl
      | true => exact absurd (by rw [TD.bne_of_isNan_right _ _ hN, hN]; rfl) hg1
    by_cases hg2 : opsCount p.condition < 1
    · rw [if_pos hg2]
      exact Or.inr (Or.inl ⟨rfl, rfl, rfl, hnn, hg2⟩)
    · rw [if_neg hg2]
      by_cases hg3 : ((p.active_on_terminate && sd) ||
          (TD.bne p.last_read_temp_degC (env p.temp_degC_source)
            && opsAt p.condition (env p.temp_degC_source) p.condition_temp_degC)) = true
      · rw [if_pos hg3]
        by_cases hg4 : (sink p.wpi_pin_number != p.output_value) = true
        · rw [if_pos hg4]
          refine Or.inr (Or.inr (Or.inr (Or.inr ⟨rfl, rfl, ?_, hnn, by omega, hg3⟩)))
          simpa using hg4
        · rw [if_neg hg4]
          refine Or.inr (Or.inr (Or.inr (Or.inl ⟨rfl, rfl, ?_, hnn, by omega, hg3⟩)))
          simpa using hg4
      · rw [if_neg hg3]
        exact Or.inr (Or.inr (Or.inl ⟨rfl, rfl, hnn, by omega, by
          cases hv : ((p.active_on_terminate && sd) ||
            (TD.bne p.last_read_temp_degC (env p.temp_degC_source)
              && opsAt p.condition (env p.temp_degC_source) p.condition_temp_degC)) with
          | false => rfl
          | true => exact absurd hv hg3⟩))

/-- One tick leaves the pin list's length unchanged. -/
theorem tickPins_length (env : String → TD) (sd : Bool) (pins : List GpioPin)
    (sink : Int → Bool) : (tickPins env sd pins sink).1.length = pins.length := by
  induction pins generalizing sink with
  | nil => rfl
  | cons p rest ih => simp [tickPins, ih]

/-- The loop always ends by returning exit status 0. -/
theorem runLoop_exitCode_eq (envSched : Nat → String → TD) (t0 t : Nat)
    (pins : List GpioPin) (sink : Int → Bool) :
    (runLoop envSched t0 t pins sink).exitCode = 0 := by
  refine runLoop.induct envSched t0
    (fun t pins sink => (runLoop envSched t0 t pins sink).exitCode = 0) ?_ ?_ t pins sink
  · intro t pins sink h
    rw [runLoop]; simp [h]
  · intro t pins sink r h slices ih
    rw [runLoop, dif_neg h]
    exact ih

/-- Shape of the loop trace: some non-shutdown ticks whose trailing sleep
slices all lie before the signal time, then a single final shutdown tick
over the full pin list with no sleep after it. -/
theorem runLoop_trace_shape (envSched : Nat → String → TD) (t0 t : Nat)
    (pins : List GpioPin) (sink : Int → Bool) :
    ∃ pre fin, (runLoop envSched t0 t pins sink).trace = pre ++ [fin] ∧
      fin.shuttingDown = true ∧
      fin.numPins = pins.length ∧
      fin.slicesAfter = 0 ∧
      t0 ≤ fin.startTime ∧
      (∀ x ∈ pre, x.shuttingDown = false ∧ x.startTime + x.slicesAfter ≤ t0) := by
  refine runLoop.induct envSched t0
    (fun t pins sink => ∃ pre fin, (runLoop envSched t0 t pins sink).trace = pre ++ [fin] ∧
      fin.shuttingDown = true ∧
      fin.numPins = pins.length ∧
      fin.slicesAfter = 0 ∧
      t0 ≤ fin.startTime ∧
      (∀ x ∈ pre, x.shuttingDown = false ∧ x.startTime + x.slicesAfter ≤ t0)) ?_ ?_ t pins sink
  · intro t pins sink h
    refine ⟨[], ⟨t, true, pins.length,
      (tickPins (envSched t) (decide (t0 ≤ t)) pins sink).2.2, 0⟩, ?_, rfl, rfl, rfl, h, by simp⟩
    rw [runLoop]; simp [h]
  · intro t pins sink r h slices ih
    obtain ⟨pre, fin, htr, hsd, hnp, hsl, hst, hpre⟩ := ih
    refine ⟨⟨t, false, pins.length, r.2.2, slices⟩ :: pre, fin, ?_, hsd, ?_, hsl, hst, ?_⟩
    · rw [runLoop, dif_neg h]
      simp [htr]
    · rw [hnp, tickPins_length]
    · intro x hx
      rcases List.mem_cons.mp hx with hx | hx
      · subst hx
        refine ⟨rfl, ?_⟩
        have h1 : slices ≤ t0 - t := Nat.min_le_right 10 (t0 - t)
        simp only []
        omega
      · exact hpre x hx

/-- C1 counterexample: on a first-tick read failure (lastReading at its
parse-time sentinel 0.0, reading = NaN), the tick leaves lastReading at
0.0 — it does not become the failed-read marker, because the read-failure
path's `continue` skips the update at the bottom of the loop body. -/
theorem C1_counterexample :
    ((fun _ => TD.nan) : String → TD) testPin.temp_degC_source = TD.nan ∧
    (pinTick (fun _ => TD.nan) false testPin (fun _ => false)).1.last_read_temp_degC
      = TD.val 0 ∧ (TD.val 0 : TD) ≠ TD.nan := by
  refine ⟨rfl, by decide, by decide⟩

/-- C1 (amended): lastReading is set to the tick's reading exactly on ticks
that pass both the read-failure check and the operator check; on a
failed-read tick or an unsupported-operator tick the early `continue`
paths leave lastReading unchanged, so it never holds the failed-read
marker. -/
theorem C1_lastReading_update (env : String → TD) (sd : Bool) (p : GpioPin)
    (sink : Int → Bool) :
    ((pinTick env sd p sink).1).last_read_temp_degC =
      if (env p.temp_degC_source).isNan || decide (opsCount p.condition < 1)
      then p.last_read_temp_degC
      else env p.temp_degC_source := by
  unfold pinTick
  rcases hT : env p.temp_degC_source with _ | q
  · have hb : TD.bne p.last_read_temp_degC TD.nan = true :=
      TD.bne_of_isNan_right p.last_read_temp_degC TD.nan rfl
    simp [hb, TD.isNan]
  · simp only [TD.isNan, Bool.and_false, Bool.false_or]
    split_ifs <;> simp_all [TD.isNan, Nat.lt_one_iff]

/-- C2: for each of the five supported operators, the comparison table from
the source agrees with standard numeric comparison on finite operands, and
returns false whenever either operand is the failed-read marker, for every
operator including equality. -/
theorem C2_evaluate_semantics :
    ∀ op ∈ (["=", "<", ">", "<=", ">="] : List String),
      (∀ x y : ℚ, opsAt op (TD.val x) (TD.val y) = spec_compare op x y) ∧
      (∀ a b : TD, a.isNan = true ∨ b.isNan = true → opsAt op a b = false) := by
  intro op hop
  have hcase : op = "=" ∨ op = "<" ∨ op = ">" ∨ op = "<=" ∨ op = ">=" := by
    simpa using hop
  rcases hcase with h | h | h | h | h <;> subst h <;>
    refine ⟨fun x y => rfl, fun a b hab => ?_⟩ <;>
    rcases a with _ | x <;> rcases b with _ | y <;>
      simp_all [opsAt, TEMPR_COMP_OPS, TD.isNan, TD.beq, TD.blt, TD.bgt, TD.ble, TD.bge]

/-- C2 witness: concrete instances — NaN never compares equal, and a finite
comparison agrees with the spec-side comparison. -/
theorem C2_evaluate_semantics_witness :
    opsAt ("=") TD.nan TD.nan = false ∧
    opsAt ("<") (TD.val 45) (TD.val 50) = spec_compare ("<") 45 50 := by
  constructor
  · exact (C2_evaluate_semantics ("=") (by simp)).2 TD.nan TD.nan (Or.inl rfl)
  · exact (C2_evaluate_semantics ("<") (by simp)).1 45 50

/-- C3 failing run: one pin whose temperature source fails on two
consecutive ticks of the loop produces a read-failure report on each of the
two ticks — not at most one for the run of consecutive failures.  The
transition guard `last_read_temp_degC != temp_degC` can never suppress a
report: NaN compares unequal to everything (itself included) and the
failure path's `continue` skips the `lastReading` update. -/
theorem C3_repeated_failure_reports :
    ((runLoop (fun _ _ => TD.nan) 1 0 [testPin] (fun _ => false)).trace.map
        TickRec.events)
      = [[PinEvent.readFailure 7], [PinEvent.readFailure 7]] := by
  rw [runLoop]
  norm_num
  rw [runLoop]
  norm_num
  decide

/-- C4: each pin performs at most one physical write per tick; a write only
carries that pin's number and configured level and only happens when the
sink's read-back level differs from it; if the sink already reports the
desired level no write happens. -/
theorem C4_write_discipline (env : String → TD) (sd : Bool) (p : GpioPin)
    (sink : Int → Bool) :
    ((pinTick env sd p sink).2.2.countP PinEvent.isWrite ≤ 1) ∧
    (∀ pn lvl tm, PinEvent.write pn lvl tm ∈ (pinTick env sd p sink).2.2 →
      pn = p.wpi_pin_number ∧ lvl = p.output_value ∧ sink pn ≠ lvl) ∧
    (sink p.wpi_pin_number = p.output_value →
      ∀ pn lvl tm, PinEvent.write pn lvl tm ∉ (pinTick env sd p sink).2.2) := by
  rcases pinTick_spec env sd p sink with
    ⟨he, _, _, _⟩ | ⟨he, _, _, _, _⟩ | ⟨he, _, _, _, _⟩ | ⟨he, _, _, _, _, _⟩ |
    ⟨he, _, hd, _, _, _⟩ <;> rw [he]
  · exact ⟨by simp [List.countP, List.countP.go, PinEvent.isWrite],
      fun pn lvl tm hm => by simp at hm, fun _ pn lvl tm hm => by simp at hm⟩
  · exact ⟨by simp [List.countP, List.countP.go, PinEvent.isWrite],
      fun pn lvl tm hm => by simp at hm, fun _ pn lvl tm hm => by simp at hm⟩
  · exact ⟨by simp [List.countP, List.countP.go], fun pn lvl tm hm => by simp at hm,
      fun _ pn lvl tm hm => by simp at hm⟩
  · exact ⟨by simp [List.countP, List.countP.go], fun pn lvl tm hm => by simp at hm,
      fun _ pn lvl tm hm => by simp at hm⟩
  · refine ⟨by simp [List.countP, List.countP.go, PinEvent.isWrite], ?_, ?_⟩
    · intro pn lvl tm hm
      simp only [List.mem_singleton, PinEvent.write.injEq] at hm
      exact ⟨hm.1, hm.2.1, by rw [hm.1, hm.2.1]; exact hd⟩
    · intro hs
      exact absurd hs hd

/-- C4 witness: a changed matching reading with the sink at the opposite
level does write; the theorem yields that the written level differed from
the sink's read-back level. -/
theorem C4_write_discipline_witness :
    (7 : Int) = testPin.wpi_pin_number ∧ true = testPin.output_value ∧
      (fun _ => false : Int → Bool) 7 ≠ true := by
  exact (C4_write_discipline (fun _ => TD.val 55) false testPin (fun _ => false)).2.1
    7 true false (by decide)

/-- C5: on the shutdown tick, a pin with `match_on_terminate` whose read
succeeded and whose operator is supported ends with the sink at its
configured output level, whatever the condition evaluates to. -/
theorem C5_terminate_forces_level (env : String → TD) (p : GpioPin) (sink : Int → Bool)
    (h1 : (env p.temp_degC_source).isNan = false)
    (h2 : 1 ≤ opsCount p.condition)
    (h3 : p.active_on_terminate = true) :
    ((pinTick env true p sink).2.1) p.wpi_pin_number = p.output_value := by
  rcases pinTick_spec env true p sink with
    ⟨_, _, _, hN⟩ | ⟨_, _, _, _, hc⟩ | ⟨_, _, _, _, hg⟩ | ⟨_, hsk, hcur, _, _, _⟩ |
    ⟨_, hsk, _, _, _, _⟩
  · rw [hN] at h1; cases h1
  · omega
  · rw [h3] at hg; simp at hg
  · rw [hsk]; exact hcur
  · rw [hsk]; simp

/-- C5 witness: a reading of 45 °C (condition `> 50` false) on the shutdown
tick still forces pin 7 to its configured level. -/
theorem C5_terminate_forces_level_witness :
    ((pinTick (fun _ => TD.val 45) true termPin (fun _ => false)).2.1)
      termPin.wpi_pin_number = termPin.output_value := by
  exact C5_terminate_forces_level (fun _ => TD.val 45) termPin (fun _ => false)
    rfl (by decide) rfl

/-- C6: with termination match not applying, a reading that compares equal
to the previous one produces no write at all, whatever the condition would
evaluate to and whatever level the sink currently reports. -/
theorem C6_unchanged_reading_no_write (env : String → TD) (sd : Bool) (p : GpioPin)
    (sink : Int → Bool)
    (h : TD.beq p.last_read_temp_degC (env p.temp_degC_source) = true)
    (h2 : (p.active_on_terminate && sd) = false) :
    (pinTick env sd p sink).2.1 = sink ∧
    ∀ pn lvl tm, PinEvent.write pn lvl tm ∉ (pinTick env sd p sink).2.2 := by
  have hbne : TD.bne p.last_read_temp_degC (env p.temp_degC_source) = false := by
    simp [TD.bne, h]
  rcases pinTick_spec env sd p sink with
    ⟨he, _, hs, _⟩ | ⟨he, _, hs, _, _⟩ | ⟨he, hs, _, _, _⟩ | ⟨he, hs, _, _, _, _⟩ |
    ⟨_, _, _, _, _, hg⟩
  · exact ⟨hs, fun pn lvl tm hm => by rw [he] at hm; simp at hm⟩
  · exact ⟨hs, fun pn lvl tm hm => by rw [he] at hm; simp at hm⟩
  · exact ⟨hs, fun pn lvl tm hm => by rw [he] at hm; simp at hm⟩
  · exact ⟨hs, fun pn lvl tm hm => by rw [he] at hm; simp at hm⟩
  · rw [h2, hbne] at hg; simp at hg

/-- C6 witness: sink at `false`, desired level `true`, condition `> 50`
true at the repeated reading 55 — yet no write, because the reading did not
change since the last tick. -/
theorem C6_unchanged_reading_no_write_witness :
    (pinTick (fun _ => TD.val 55) false
        { testPin with last_read_temp_degC := TD.val 55 } (fun _ => false)).2.1
      = (fun _ => false : Int → Bool) := by
  exact (C6_unchanged_reading_no_write (fun _ => TD.val 55) false
    { testPin with last_read_temp_degC := TD.val 55 } (fun _ => false)
    (by decide) rfl).1

/-- C7: with the shutdown signal delivered at time `t0`, the loop runs some
ticks that observed the flag up — each followed only by sleep slices lying
before `t0` — then exactly one final full tick over all pins with
`shuttingDown = true`, with no sleep slice between the observation of the
flag and that tick, and the process exits with status 0; nothing follows
the final tick. -/
theorem C7_draining_single_final_tick (envSched : Nat → String → TD) (t0 : Nat)
    (pins : List GpioPin) (sink : Int → Bool) :
    ∃ pre fin, (runLoop envSched t0 0 pins sink).trace = pre ++ [fin] ∧
      fin.shuttingDown = true ∧
      fin.numPins = pins.length ∧
      fin.slicesAfter = 0 ∧
      t0 ≤ fin.startTime ∧
      (pre.all fun x => !x.shuttingDown && decide (x.startTime + x.slicesAfter ≤ t0)) = true ∧
      (runLoop envSched t0 0 pins sink).exitCode = 0 := by
  obtain ⟨pre, fin, htr, hsd, hnp, hsl, hst, hpre⟩ := runLoop_trace_shape envSched t0 0 pins sink
  refine ⟨pre, fin, htr, hsd, hnp, hsl, hst, ?_, runLoop_exitCode_eq envSched t0 0 pins sink⟩
  rw [List.all_eq_true]
  intro x hx
  have hp := hpre x hx
  simp [hp.1, hp.2]

/-- C8: an unopenable configuration exits with status 1 and an empty pin
list with status 2, in both cases without touching hardware or entering
the loop; any non-empty configuration runs the loop to its signal-driven
end and exits with status 0. -/
theorem C8_startup_exit_codes (envSched : Nat → String → TD) (t0 : Nat)
    (sink : Int → Bool) :
    tempmon_main none envSched t0 sink = ⟨1, false, []⟩ ∧
    tempmon_main (some []) envSched t0 sink = ⟨2, false, []⟩ ∧
    ∀ pins : List GpioPin, pins ≠ [] →
      (tempmon_main (some pins) envSched t0 sink).exitCode = 0 := by
  refine ⟨rfl, rfl, ?_⟩
  intro pins hne
  show (if pins.length = 0 then (⟨2, false, []⟩ : MainResult)
    else let r := runLoop envSched t0 0 pins sink
         ⟨r.exitCode, true, r.trace⟩).exitCode = 0
  rw [if_neg (by simpa using hne)]
  exact runLoop_exitCode_eq envSched t0 0 pins sink

/-- C8 witness: a one-pin configuration exits with status 0. -/
theorem C8_startup_exit_codes_witness :
    (tempmon_main (some [testPin]) (fun _ _ => TD.nan) 0 (fun _ => false)).exitCode = 0 := by
  exact (C8_startup_exit_codes (fun _ _ => TD.nan) 0 (fun _ => false)).2.2
    [testPin] (by simp)

/-- C9 counterexample: a source file that opens but from which integer
extraction fails — an I/O error while reading — yields 0.0 °C, not the
failed-read marker. -/
theorem C9_counterexample :
    read_temp_degC (some none) = TD.val 0 ∧
    (read_temp_degC (some none)).isNan = false := by
  constructor
  · show TD.val ((0 : Int) / 1000 : ℚ) = TD.val 0
    norm_num
  · rfl

/-- C9 (amended): the read returns the failed-read marker exactly when the
source cannot be opened; when it opens, the result is the extracted raw
integer divided by 1000.0 in degrees Celsius, with raw left at 0 when
extraction fails. -/
theorem C9_read_scaling (file : Option (Option Int)) :
    ((read_temp_degC file).isNan = true ↔ file = none) ∧
    (∀ raw : Int, file = some (some raw) →
      read_temp_degC file = TD.val ((raw : ℚ) / 1000)) ∧
    (file = some none → read_temp_degC file = TD.val 0) := by
  rcases file with _ | (_ | raw)
  · refine ⟨by simp [read_temp_degC, TD.isNan], fun raw h => ?_, fun h => ?_⟩
    · cases h
    · cases h
  · refine ⟨by simp [read_temp_degC, TD.isNan], fun raw h => ?_, fun _ => ?_⟩
    · cases h
    · show TD.val ((0 : Int) / 1000 : ℚ) = TD.val 0
      norm_num
  · refine ⟨by simp [read_temp_degC, TD.isNan], fun raw2 h => ?_, fun h => ?_⟩
    · injection h with h1
      injection h1 with h2
      subst h2
      rfl
    · cases h

/-- C9 witness: a successfully read raw value of 55000 milli-degrees gives
55 °C. -/
theorem C9_read_scaling_witness :
    read_temp_degC (some (some 55000)) = TD.val ((55000 : ℚ) / 1000) := by
  exact (C9_read_scaling (some (some 55000))).2.1 55000 rfl

/-- C10: on the shutdown tick, a failed read or an unsupported operator
pre-empts the termination match even for a `match_on_terminate` pin: the
sink is untouched and no write event is produced, so the forced level is
not asserted. -/
theorem C10_error_preempts_terminate (env : String → TD) (p : GpioPin)
    (sink : Int → Bool)
    (hterm : p.active_on_terminate = true)
    (h : (env p.temp_degC_source).isNan = true ∨ opsCount p.condition < 1) :
    (pinTick env true p sink).2.1 = sink ∧
    ∀ pn lvl tm, PinEvent.write pn lvl tm ∉ (pinTick env true p sink).2.2 := by
  rcases pinTick_spec env true p sink with
    ⟨he, _, hs, _⟩ | ⟨he, _, hs, _, _⟩ | ⟨he, hs, _, _, _⟩ | ⟨he, hs, _, hnn, hops, _⟩ |
    ⟨he, hs, _, hnn, hops, _⟩
  · exact ⟨hs, fun pn lvl tm hm => by rw [he] at hm; simp at hm⟩
  · exact ⟨hs, fun pn lvl tm hm => by rw [he] at hm; simp at hm⟩
  · exact ⟨hs, fun pn lvl tm hm => by rw [he] at hm; simp at hm⟩
  · rcases h with h | h
    · rw [h] at hnn; cases hnn
    · omega
  · rcases h with h | h
    · rw [h] at hnn; cases hnn
    · omega

/-- C10 witness: an unsupported operator `!=` on the shutdown tick of a
`match_on_terminate` pin leaves the sink untouched. -/
theorem C10_error_preempts_terminate_witness :
    (pinTick (fun _ => TD.val 55) true { termPin with condition := "!=" }
      (fun _ => false)).2.1 = (fun _ => false : Int → Bool) := by
  exact (C10_error_preempts_terminate (fun _ => TD.val 55)
    { termPin with condition := "!=" } (fun _ => false) rfl (Or.inr (by decide))).1
